import Mathlib

/-!
Verification of the fine-tuning job configuration and dataset-admission
workflow of `src/training/gr00t/finetune_gr00t.py` (called
`JobConfigurator` in the spec).  The Python script is shallowly embedded:

* the process environment is a function `String → Option String`;
* `resolve` embeds `FinetuneWorkflow.__init__` together with
  `_validate_parameters` (environment reading, typed defaults, collect-all
  validation of required variables);
* `validate_dataset` embeds `FinetuneWorkflow.validate_dataset`
  (named `ensure_dataset_ready` in the spec), acting on an abstract state of the
  dataset directory and reporting the filesystem writes it performs;
* `plan_execution` embeds the launch decision of
  `FinetuneWorkflow.run_training` (the two asserts and the
  single-GPU / torchrun-worker / spawn branching);
* `build_training_parameters` embeds the `TrainingArguments` construction
  of `FinetuneWorkflow._train_once`;
* `run_workflow` / `main_model` embed `FinetuneWorkflow.run_workflow` and
  `main`, mapping exceptions to process exit codes (`SystemExit` from the
  torchrun path is not an `Exception` in Python and therefore escapes the
  `except Exception` handler).
-/

namespace Gr00tFinetune

/-! ### Python-style parsing of environment variable values -/

/-- Numeric value of a list of decimal digit characters. -/
def charsToNat (cs : List Char) : Nat :=
  cs.foldl (fun a c => a * 10 + (c.toNat - 48)) 0

/-- All-digit check used by the numeric parsers. -/
def allDigits (cs : List Char) : Bool :=
  cs.all Char.isDigit

/-- Strip leading and trailing whitespace from a character list
(the stripping `int()`/`float()` perform on their argument). -/
def charsTrim (cs : List Char) : List Char :=
  ((cs.dropWhile Char.isWhitespace).reverse.dropWhile Char.isWhitespace).reverse

/-- Model of `str.lower()` on ASCII content. -/
def strToLower (s : String) : String :=
  ⟨s.data.map Char.toLower⟩

/-- Model of Python `int(s)`: optional sign followed by at least one digit
(leading/trailing whitespace stripped); anything else raises, modelled as
`none`. -/
def parsePyInt (s : String) : Option Int :=
  let cs := charsTrim s.toList
  match cs with
  | '-' :: rest =>
      if rest ≠ [] ∧ allDigits rest then some (-(charsToNat rest : Int)) else none
  | '+' :: rest =>
      if rest ≠ [] ∧ allDigits rest then some (charsToNat rest : Int) else none
  | rest =>
      if rest ≠ [] ∧ allDigits rest then some (charsToNat rest : Int) else none

/-- Exponent part of a float literal: `e`/`E`, optional sign, digits. -/
def parseExponent (cs : List Char) : Option Int :=
  match cs with
  | [] => some 0
  | 'e' :: rest | 'E' :: rest =>
      match rest with
      | '-' :: ds => if ds ≠ [] ∧ allDigits ds then some (-(charsToNat ds : Int)) else none
      | '+' :: ds => if ds ≠ [] ∧ allDigits ds then some (charsToNat ds : Int) else none
      | ds => if ds ≠ [] ∧ allDigits ds then some (charsToNat ds : Int) else none
  | _ => none

/-- Scale a rational by a (possibly negative) power of ten. -/
def scaleByPow10 (q : ℚ) (e : Int) : ℚ :=
  if 0 ≤ e then q * (10 : ℚ) ^ e.toNat else q / (10 : ℚ) ^ (-e).toNat

/-- Model of Python `float(s)` on finite decimal literals:
`[sign] (digits [. digits] | . digits) [exponent]`.  Values are exact
rationals; the special values `inf`/`nan` are out of scope and modelled as
failures. -/
def parsePyFloat (s : String) : Option ℚ :=
  let cs := charsTrim s.toList
  let (sgn, cs) : ℚ × List Char :=
    match cs with
    | '-' :: rest => (-1, rest)
    | '+' :: rest => (1, rest)
    | rest => (1, rest)
  let (intPart, cs) := cs.span Char.isDigit
  let (fracPart, cs) :=
    match cs with
    | '.' :: rest => rest.span Char.isDigit
    | rest => ([], rest)
  if intPart = [] ∧ fracPart = [] then none
  else
    match parseExponent cs with
    | none => none
    | some e =>
        let mantissa : ℚ := (charsToNat (intPart ++ fracPart) : ℚ)
        some (sgn * scaleByPow10 mantissa (e - fracPart.length))

/-- Model of `os.getenv(name, default)`: the default applies only when the variable
is unset; an empty string is returned as-is. -/
def getenv (env : String → Option String) (name default : String) : String :=
  (env name).getD default

/-- Python truthiness of an optional string: `None` and `""` are falsy. -/
def falsyStr (o : Option String) : Bool :=
  match o with
  | none => true
  | some s => s == ""

/-- Model of `os.getenv(name, default).lower() == "true"`. -/
def boolEnv (env : String → Option String) (name default : String) : Bool :=
  strToLower (getenv env name default) == "true"

/-! ### RunConfig: the resolved configuration record -/

/-- The configuration fields `FinetuneWorkflow.__init__` reads from the
environment (float-typed fields carried as exact rationals). -/
structure RunConfig where
  dataset_local_dir : String
  output_dir : String
  max_steps : Int
  save_steps : Int
  num_gpus : Int
  data_config : String
  video_backend : String
  batch_size : Int
  learning_rate : ℚ
  base_model_path : String
  embodiment_tag : String
  report_to : String
  tune_llm : Bool
  tune_visual : Bool
  tune_projector : Bool
  tune_diffusion_model : Bool
  lora_rank : Int
  lora_alpha : Int
  lora_dropout : ℚ
  weight_decay : ℚ
  warmup_ratio : ℚ
  dataloader_num_workers : Int
  dataloader_prefetch_factor : Int
  balance_dataset_weights : Bool
  balance_trajectory_weights : Bool
  lora_full_model : Bool
  resume : Bool
  deriving DecidableEq, Repr

/-- Failures of configuration resolution: `parseError v` models the
`ValueError` raised by `int()`/`float()` on the value of variable `v`;
`missingRequired names` models the `ValueError` raised by
`_validate_parameters` listing every missing required variable. -/
inductive ResolveError where
  | parseError (var : String)
  | missingRequired (names : List String)
  deriving DecidableEq, Repr

/-- Step reading `int(os.getenv(name, default))` as an `Except` value. -/
def intVar (env : String → Option String) (name default : String) :
    Except ResolveError Int :=
  match parsePyInt (getenv env name default) with
  | some v => .ok v
  | none => .error (.parseError name)

/-- Step reading `float(os.getenv(name, default))` as an `Except` value. -/
def floatVar (env : String → Option String) (name default : String) :
    Except ResolveError ℚ :=
  match parsePyFloat (getenv env name default) with
  | some v => .ok v
  | none => .error (.parseError name)

/-- The `required_params` dict of `_validate_parameters`: only
`DATASET_LOCAL_DIR` is required. -/
def required_params (env : String → Option String) : List (String × Option String) :=
  [("DATASET_LOCAL_DIR", env "DATASET_LOCAL_DIR")]

/-- The `missing_params` list comprehension: names of required variables
whose value is falsy (unset or empty). -/
def missing_params (env : String → Option String) : List String :=
  ((required_params env).filter (fun p => falsyStr p.2)).map Prod.fst

/-- Embedding of `FinetuneWorkflow.__init__` + `_validate_parameters`
(named `resolve()` in the spec): read every field with its default in source
order — so a numeric parse failure raises before required-variable
validation runs — then fail with the full list of missing required names,
or return the populated record. -/
def resolve (env : String → Option String) : Except ResolveError RunConfig := do
  let dataset_local_dir := env "DATASET_LOCAL_DIR"
  let output_dir := getenv env "OUTPUT_DIR" "/workspace/checkpoints"
  let max_steps ← intVar env "MAX_STEPS" "6000"
  let save_steps ← intVar env "SAVE_STEPS" "2000"
  let num_gpus ← intVar env "NUM_GPUS" "1"
  let data_config := getenv env "DATA_CONFIG" "so100_dualcam"
  let video_backend := getenv env "VIDEO_BACKEND" "torchvision_av"
  let batch_size ← intVar env "BATCH_SIZE" "32"
  let learning_rate ← floatVar env "LEARNING_RATE" "1e-4"
  let base_model_path := getenv env "BASE_MODEL_PATH" "nvidia/GR00T-N1.5-3B"
  let embodiment_tag := getenv env "EMBODIMENT_TAG" "new_embodiment"
  let report_to := getenv env "REPORT_TO" "tensorboard"
  let tune_llm := boolEnv env "TUNE_LLM" "false"
  let tune_visual := boolEnv env "TUNE_VISUAL" "false"
  let tune_projector := boolEnv env "TUNE_PROJECTOR" "true"
  let tune_diffusion_model := boolEnv env "TUNE_DIFFUSION_MODEL" "true"
  let lora_rank ← intVar env "LORA_RANK" "0"
  let lora_alpha ← intVar env "LORA_ALPHA" "16"
  let lora_dropout ← floatVar env "LORA_DROPOUT" "0.1"
  let weight_decay ← floatVar env "WEIGHT_DECAY" "1e-5"
  let warmup_ratio ← floatVar env "WARMUP_RATIO" "0.05"
  let dataloader_num_workers ← intVar env "DATALOADER_NUM_WORKERS" "8"
  let dataloader_prefetch_factor ← intVar env "DATALOADER_PREFETCH_FACTOR" "4"
  let balance_dataset_weights := boolEnv env "BALANCE_DATASET_WEIGHTS" "true"
  let balance_trajectory_weights := boolEnv env "BALANCE_TRAJECTORY_WEIGHTS" "true"
  let lora_full_model := boolEnv env "LORA_FULL_MODEL" "false"
  let resume := boolEnv env "RESUME" "false"
  let missing := missing_params env
  if missing ≠ [] then
    .error (.missingRequired missing)
  else
    .ok {
      dataset_local_dir := dataset_local_dir.getD ""
      output_dir, max_steps, save_steps, num_gpus, data_config
      video_backend, batch_size, learning_rate, base_model_path
      embodiment_tag, report_to, tune_llm, tune_visual, tune_projector
      tune_diffusion_model, lora_rank, lora_alpha, lora_dropout
      weight_decay, warmup_ratio, dataloader_num_workers
      dataloader_prefetch_factor, balance_dataset_weights
      balance_trajectory_weights, lora_full_model, resume }

/-! ### Dataset directory model and `validate_dataset` -/

/-- Channel range entry of the modality file, with start and end fields. -/
structure ChannelRange where
  start : Nat
  «end» : Nat
  deriving DecidableEq, Repr

/-- Parsed content of a `meta/modality.json` file, mirroring the nested
dict literal of `validate_dataset` (association lists keep the dict
shape). -/
structure ModalityContent where
  state : List (String × ChannelRange)
  action : List (String × ChannelRange)
  video : List (String × String)
  annotation : List (String × String)
  deriving DecidableEq, Repr

/-- The `modality_content` dict written by `validate_dataset` for
`so100_dualcam` (video/annotation entries carry their `original_key`). -/
def modality_content : ModalityContent where
  state := [("single_arm", ⟨0, 5⟩), ("gripper", ⟨5, 6⟩)]
  action := [("single_arm", ⟨0, 5⟩), ("gripper", ⟨5, 6⟩)]
  video := [("wrist", "observation.images.wrist"), ("front", "observation.images.front")]
  annotation := [("human.task_description", "task_index")]

/-- Abstract state of the dataset directory at `dataset_local_dir`:
whether it exists as a directory (`os.path.isdir`), its `os.listdir`
entries, and the content of `meta/modality.json` when that file exists. -/
structure DirState where
  isDir : Bool
  entries : List String
  modalityJson : Option ModalityContent
  deriving DecidableEq, Repr

/-- Filesystem writes `validate_dataset` can perform. -/
inductive WriteOp where
  | makedirs (path : String)
  | writeFile (path : String) (content : ModalityContent)
  deriving DecidableEq, Repr

/-- Workflow-stage failures: `DatasetNotReady` is the `RuntimeError` of
`validate_dataset`; `ResourceError` is an `AssertionError` of the GPU
checks in `run_training`. -/
inductive WErr where
  | DatasetNotReady
  | ResourceError
  deriving DecidableEq, Repr

/-- Embedding of `FinetuneWorkflow.validate_dataset` (named
`ensure_dataset_ready` in the spec).  `envHasDatasetVar` is the
`"DATASET_LOCAL_DIR" in os.environ` test.  On success it returns the
updated directory state together with the list of writes performed:
when `data_config == "so100_dualcam"` and `meta/modality.json` is
missing, it runs `os.makedirs(meta_dir, exist_ok=True)` and writes the
default `modality_content`; every other success path writes nothing.
Both the absent-directory and the empty-directory cases fall through to
the `RuntimeError`. -/
def validate_dataset (cfg : RunConfig) (envHasDatasetVar : Bool) (d : DirState) :
    Except WErr (DirState × List WriteOp) :=
  if envHasDatasetVar = true ∧ d.isDir = true then
    if d.entries ≠ [] then
      if cfg.data_config = "so100_dualcam" ∧ d.modalityJson = none then
        let meta_dir := cfg.dataset_local_dir ++ "/meta"
        let modality_json_path := meta_dir ++ "/modality.json"
        .ok ({ d with
                entries := if "meta" ∈ d.entries then d.entries else d.entries ++ ["meta"]
                modalityJson := some modality_content },
             [.makedirs meta_dir, .writeFile modality_json_path modality_content])
      else
        .ok (d, [])
    else
      .error .DatasetNotReady
  else
    .error .DatasetNotReady

/-! ### Execution planning (`run_training` launch decision) -/

/-- The execution-plan value of the spec. -/
inductive ExecPlan where
  | Direct
  | Spawn (workerCount : Int)
  deriving DecidableEq, Repr

/-- Embedding of the launch decision of `FinetuneWorkflow.run_training`
(named `plan_execution` in the spec): the assert `num_gpus <= available_gpus`,
then the assert `num_gpus > 0`, then single-GPU in-process execution,
then the `IS_TORCHRUN` re-entrancy check, else a torchrun spawn of
`num_gpus` workers. -/
def plan_execution (num_gpus available : Int) (is_torchrun : Bool) :
    Except WErr ExecPlan :=
  if available < num_gpus then .error .ResourceError
  else if num_gpus ≤ 0 then .error .ResourceError
  else if num_gpus = 1 then .ok .Direct
  else if is_torchrun then .ok .Direct
  else .ok (.Spawn num_gpus)

/-! ### Training-parameter assembly (`_train_once`, TrainingArguments) -/

/-- The `TrainingArguments` record built by `_train_once`, field for
field (float-valued arguments as exact rationals). -/
structure TrainingArgumentsModel where
  output_dir : String
  run_name : Option String
  remove_unused_columns : Bool
  deepspeed : String
  gradient_checkpointing : Bool
  bf16 : Bool
  tf32 : Bool
  per_device_train_batch_size : Int
  gradient_accumulation_steps : Int
  dataloader_num_workers : Int
  dataloader_pin_memory : Bool
  dataloader_prefetch_factor : Int
  dataloader_persistent_workers : Bool
  optim : String
  adam_beta1 : ℚ
  adam_beta2 : ℚ
  adam_epsilon : ℚ
  learning_rate : ℚ
  weight_decay : ℚ
  warmup_ratio : ℚ
  lr_scheduler_type : String
  logging_steps : ℚ
  num_train_epochs : Int
  max_steps : Int
  save_strategy : String
  save_steps : Int
  save_total_limit : Int
  report_to : String
  seed : Int
  do_eval : Bool
  ddp_find_unused_parameters : Bool
  ddp_bucket_cap_mb : Int
  torch_compile_mode : Option String
  deriving DecidableEq, Repr

/-- Embedding of the `TrainingArguments(...)` construction in
`_train_once` (named `build_training_parameters` in the spec).  The
`action_horizon` derived from the data config feeds the model-surgery
step, not the argument record, so it is an unused input here — exactly as
in the source. -/
def build_training_parameters (c : RunConfig) (action_horizon : Int) :
    TrainingArgumentsModel where
  output_dir := c.output_dir
  run_name := none
  remove_unused_columns := false
  deepspeed := ""
  gradient_checkpointing := false
  bf16 := true
  tf32 := true
  per_device_train_batch_size := c.batch_size
  gradient_accumulation_steps := 1
  dataloader_num_workers := c.dataloader_num_workers
  dataloader_pin_memory := false
  dataloader_prefetch_factor := c.dataloader_prefetch_factor
  dataloader_persistent_workers := 0 < c.dataloader_num_workers
  optim := "adamw_torch"
  adam_beta1 := 0.95
  adam_beta2 := 0.999
  adam_epsilon := 1e-8
  learning_rate := c.learning_rate
  weight_decay := c.weight_decay
  warmup_ratio := c.warmup_ratio
  lr_scheduler_type := "cosine"
  logging_steps := 10.0
  num_train_epochs := 300
  max_steps := c.max_steps
  save_strategy := "steps"
  save_steps := c.save_steps
  save_total_limit := 5
  report_to := c.report_to
  seed := 42
  do_eval := false
  ddp_find_unused_parameters := false
  ddp_bucket_cap_mb := 100
  torch_compile_mode := none

/-! ### Workflow composition and exit codes -/

/-- Outcome of the `torchrun(args=args)` call on the spawn path:
it may return normally, raise `SystemExit` with an optional integer code,
or raise an ordinary exception. -/
inductive SpawnResult where
  | returned
  | sysExit (code : Option Int)
  | raisedExc
  deriving DecidableEq, Repr

/-- How a workflow stage aborts: `exc` is a Python `Exception` (caught by
the handler in `run_workflow`); `exit c` is a `SystemExit` carrying exit code
`c`, which is not an `Exception` and escapes that handler. -/
inductive RunErr where
  | exc
  | exit (code : Int)
  deriving DecidableEq, Repr

/-- Embedding of `FinetuneWorkflow.run_training`: the launch decision,
then either in-process training (`trainOk` abstracts whether
`_train_once` succeeds) or the torchrun spawn, whose `SystemExit` code is
re-raised via `sys.exit(e.code if isinstance(e.code, int) else 0)`. -/
def run_training (c : RunConfig) (available : Int) (marker : Bool)
    (sr : SpawnResult) (trainOk : Bool) : Except RunErr Unit :=
  match plan_execution c.num_gpus available marker with
  | .error _ => .error .exc
  | .ok .Direct => if trainOk then .ok () else .error .exc
  | .ok (.Spawn _) =>
      match sr with
      | .returned => .ok ()
      | .sysExit code => .error (.exit (code.getD 0))
      | .raisedExc => .error .exc

/-- Embedding of `FinetuneWorkflow.run_workflow`: dataset validation then
training inside `try/except Exception`; a caught exception yields
`sys.exit(1)`, normal completion yields process exit 0, and a
`SystemExit` from the spawn path propagates its own code.  The result
pairs the exit code with the final dataset-directory state. -/
def run_workflow (c : RunConfig) (envHasDatasetVar : Bool) (d : DirState)
    (available : Int) (marker : Bool) (sr : SpawnResult) (trainOk : Bool) :
    Int × DirState :=
  match validate_dataset c envHasDatasetVar d with
  | .error _ => (1, d)
  | .ok (d', _) =>
      match run_training c available marker sr trainOk with
      | .ok _ => (0, d')
      | .error .exc => (1, d')
      | .error (.exit code) => (code, d')

/-- The `IS_TORCHRUN` re-entrancy marker read at the spawn decision:
`os.environ.get("IS_TORCHRUN", "0") == "1"`. -/
def is_torchrun_marker (env : String → Option String) : Bool :=
  (env "IS_TORCHRUN").getD "0" == "1"

/-- Embedding of `main`: construct the workflow (resolving the
configuration from the environment) and run it.  An exception escaping
`__init__` terminates the process with a nonzero code before any dataset
access; afterwards the environment is consulted only for the
`DATASET_LOCAL_DIR` membership test and the re-entrancy marker. -/
def main_model (env : String → Option String) (d : DirState) (available : Int)
    (sr : SpawnResult) (trainOk : Bool) : Int × DirState :=
  match resolve env with
  | .error _ => (1, d)
  | .ok c =>
      run_workflow c (env "DATASET_LOCAL_DIR").isSome d available
        (is_torchrun_marker env) sr trainOk

/-! ### Concrete fixtures used to exercise the theorems -/

/-- The configuration produced by `resolve` on an environment that sets
only `DATASET_LOCAL_DIR=/data/x` (every other field at its default). -/
def sampleConfig : RunConfig where
  dataset_local_dir := "/data/x"
  output_dir := "/workspace/checkpoints"
  max_steps := 6000
  save_steps := 2000
  num_gpus := 1
  data_config := "so100_dualcam"
  video_backend := "torchvision_av"
  batch_size := 32
  learning_rate := 1e-4
  base_model_path := "nvidia/GR00T-N1.5-3B"
  embodiment_tag := "new_embodiment"
  report_to := "tensorboard"
  tune_llm := false
  tune_visual := false
  tune_projector := true
  tune_diffusion_model := true
  lora_rank := 0
  lora_alpha := 16
  lora_dropout := 0.1
  weight_decay := 1e-5
  warmup_ratio := 0.05
  dataloader_num_workers := 8
  dataloader_prefetch_factor := 4
  balance_dataset_weights := true
  balance_trajectory_weights := true
  lora_full_model := false
  resume := false

/-- Same configuration requesting four GPUs. -/
def sampleConfigMulti : RunConfig := { sampleConfig with num_gpus := 4 }

/-- Same configuration with a data config other than `so100_dualcam`. -/
def sampleConfigOtherData : RunConfig :=
  { sampleConfig with data_config := "fourier_gr1_arms_only" }

/-- A ready dataset directory whose modality file is already present. -/
def dirReady : DirState := ⟨true, ["episodes"], some modality_content⟩

/-- A non-empty dataset directory lacking the modality file. -/
def dirNoModality : DirState := ⟨true, ["episodes"], none⟩

/-- An existing but empty dataset directory. -/
def dirEmptyDir : DirState := ⟨true, [], none⟩

/-- State of `dirNoModality` after the default modality file has been written. -/
def dirAfterWrite : DirState := ⟨true, ["episodes", "meta"], some modality_content⟩

/-- A custom (non-default) modality file content. -/
def customModality : ModalityContent where
  state := [("single_arm", ⟨0, 7⟩)]
  action := [("single_arm", ⟨0, 7⟩)]
  video := [("top", "observation.images.top")]
  annotation := []

/-- A ready dataset directory whose modality file holds custom content. -/
def dirCustom : DirState := ⟨true, ["episodes"], some customModality⟩

/-- Environment with no variables set at all. -/
def envMissingAll : String → Option String := fun _ => none

/-- Environment setting only the required `DATASET_LOCAL_DIR`. -/
def envMinimal : String → Option String :=
  fun n => if n = "DATASET_LOCAL_DIR" then some "/data/x" else none

/-- Like `envMinimal` but also setting `MAX_STEPS` explicitly to its
default value. -/
def envMinimalExplicit : String → Option String :=
  fun n =>
    if n = "DATASET_LOCAL_DIR" then some "/data/x"
    else if n = "MAX_STEPS" then some "6000" else none

/-- Like `envMinimal` but with an unparseable `MAX_STEPS`. -/
def envBadMaxSteps : String → Option String :=
  fun n =>
    if n = "DATASET_LOCAL_DIR" then some "/data/x"
    else if n = "MAX_STEPS" then some "abc" else none

/-- Every numeric environment variable (or its default) parses as its
type, i.e. none of the `int()`/`float()` calls of `__init__` raises. -/
def numeric_env_ok (env : String → Option String) : Bool :=
  (intVar env "MAX_STEPS" "6000").isOk &&
  (intVar env "SAVE_STEPS" "2000").isOk &&
  (intVar env "NUM_GPUS" "1").isOk &&
  (intVar env "BATCH_SIZE" "32").isOk &&
  (floatVar env "LEARNING_RATE" "1e-4").isOk &&
  (intVar env "LORA_RANK" "0").isOk &&
  (intVar env "LORA_ALPHA" "16").isOk &&
  (floatVar env "LORA_DROPOUT" "0.1").isOk &&
  (floatVar env "WEIGHT_DECAY" "1e-5").isOk &&
  (floatVar env "WARMUP_RATIO" "0.05").isOk &&
  (intVar env "DATALOADER_NUM_WORKERS" "8").isOk &&
  (intVar env "DATALOADER_PREFETCH_FACTOR" "4").isOk

/-! ### Theorems -/

theorem except_bind_ok {ε α β : Type} (v : α) (f : α → Except ε β) :
    (Except.ok v >>= f) = f v := rfl

theorem except_bind_error {ε α β : Type} (e : ε) (f : α → Except ε β) :
    ((Except.error e : Except ε α) >>= f) = Except.error e := rfl

theorem except_ok_of_isOk {ε α : Type} (e : Except ε α) (h : e.isOk = true) :
    ∃ v, e = .ok v := by
  cases e with
  | error x => simp [Except.isOk, Except.toBool] at h
  | ok v => exact ⟨v, rfl⟩

/-- Exhaustive shape of `resolve`: either some `int()`/`float()` call
raises (and then `numeric_env_ok` is false), or every numeric variable
parses and the outcome is decided by `missing_params`: the collect-all
error when any required variable is missing, a populated config
otherwise. -/
theorem resolve_shape (env : String → Option String) :
    (numeric_env_ok env = false ∧ ∃ v, resolve env = .error (.parseError v)) ∨
    (numeric_env_ok env = true ∧
      ((missing_params env = [] ∧ (resolve env).isOk = true) ∨
       (missing_params env ≠ [] ∧
         resolve env = .error (.missingRequired (missing_params env))))) := by
  cases hp1 : parsePyInt (getenv env "MAX_STEPS" "6000") with
  | none =>
      refine Or.inl ⟨?_, "MAX_STEPS", ?_⟩
      · simp [numeric_env_ok, intVar, hp1, Except.isOk, Except.toBool]
      · simp [resolve, intVar, hp1, except_bind_error]
  | some v1 =>
  cases hp2 : parsePyInt (getenv env "SAVE_STEPS" "2000") with
  | none =>
      refine Or.inl ⟨?_, "SAVE_STEPS", ?_⟩
      · simp [numeric_env_ok, intVar, hp2, Except.isOk, Except.toBool]
      · simp [resolve, intVar, hp1, hp2, except_bind_ok, except_bind_error]
  | some v2 =>
  cases hp3 : parsePyInt (getenv env "NUM_GPUS" "1") with
  | none =>
      refine Or.inl ⟨?_, "NUM_GPUS", ?_⟩
      · simp [numeric_env_ok, intVar, hp3, Except.isOk, Except.toBool]
      · simp [resolve, intVar, hp1, hp2, hp3, except_bind_ok, except_bind_error]
  | some v3 =>
  cases hp4 : parsePyInt (getenv env "BATCH_SIZE" "32") with
  | none =>
      refine Or.inl ⟨?_, "BATCH_SIZE", ?_⟩
      · simp [numeric_env_ok, intVar, hp4, Except.isOk, Except.toBool]
      · simp [resolve, intVar, hp1, hp2, hp3, hp4, except_bind_ok,
          except_bind_error]
  | some v4 =>
  cases hp5 : parsePyFloat (getenv env "LEARNING_RATE" "1e-4") with
  | none =>
      refine Or.inl ⟨?_, "LEARNING_RATE", ?_⟩
      · simp [numeric_env_ok, floatVar, hp5, Except.isOk, Except.toBool]
      · simp [resolve, intVar, floatVar, hp1, hp2, hp3, hp4, hp5,
          except_bind_ok, except_bind_error]
  | some v5 =>
  cases hp6 : parsePyInt (getenv env "LORA_RANK" "0") with
  | none =>
      refine Or.inl ⟨?_, "LORA_RANK", ?_⟩
      · simp [numeric_env_ok, intVar, hp6, Except.isOk, Except.toBool]
      · simp [resolve, intVar, floatVar, hp1, hp2, hp3, hp4, hp5, hp6,
          except_bind_ok, except_bind_error]
  | some v6 =>
  cases hp7 : parsePyInt (getenv env "LORA_ALPHA" "16") with
  | none =>
      refine Or.inl ⟨?_, "LORA_ALPHA", ?_⟩
      · simp [numeric_env_ok, intVar, hp7, Except.isOk, Except.toBool]
      · simp [resolve, intVar, floatVar, hp1, hp2, hp3, hp4, hp5, hp6, hp7,
          except_bind_ok, except_bind_error]
  | some v7 =>
  cases hp8 : parsePyFloat (getenv env "LORA_DROPOUT" "0.1") with
  | none =>
      refine Or.inl ⟨?_, "LORA_DROPOUT", ?_⟩
      · simp [numeric_env_ok, floatVar, hp8, Except.isOk, Except.toBool]
      · simp [resolve, intVar, floatVar, hp1, hp2, hp3, hp4, hp5, hp6, hp7,
          hp8, except_bind_ok, except_bind_error]
  | some v8 =>
  cases hp9 : parsePyFloat (getenv env "WEIGHT_DECAY" "1e-5") with
  | none =>
      refine Or.inl ⟨?_, "WEIGHT_DECAY", ?_⟩
      · simp [numeric_env_ok, floatVar, hp9, Except.isOk, Except.toBool]
      · simp [resolve, intVar, floatVar, hp1, hp2, hp3, hp4, hp5, hp6, hp7,
          hp8, hp9, except_bind_ok, except_bind_error]
  | some v9 =>
  cases hp10 : parsePyFloat (getenv env "WARMUP_RATIO" "0.05") with
  | none =>
      refine Or.inl ⟨?_, "WARMUP_RATIO", ?_⟩
      · simp [numeric_env_ok, floatVar, hp10, Except.isOk, Except.toBool]
      · simp [resolve, intVar, floatVar, hp1, hp2, hp3, hp4, hp5, hp6, hp7,
          hp8, hp9, hp10, except_bind_ok, except_bind_error]
  | some v10 =>
  cases hp11 : parsePyInt (getenv env "DATALOADER_NUM_WORKERS" "8") with
  | none =>
      refine Or.inl ⟨?_, "DATALOADER_NUM_WORKERS", ?_⟩
      · simp [numeric_env_ok, intVar, hp11, Except.isOk, Except.toBool]
      · simp [resolve, intVar, floatVar, hp1, hp2, hp3, hp4, hp5, hp6, hp7,
          hp8, hp9, hp10, hp11, except_bind_ok, except_bind_error]
  | some v11 =>
  cases hp12 : parsePyInt (getenv env "DATALOADER_PREFETCH_FACTOR" "4") with
  | none =>
      refine Or.inl ⟨?_, "DATALOADER_PREFETCH_FACTOR", ?_⟩
      · simp [numeric_env_ok, intVar, hp12, Except.isOk, Except.toBool]
      · simp [resolve, intVar, floatVar, hp1, hp2, hp3, hp4, hp5, hp6, hp7,
          hp8, hp9, hp10, hp11, hp12, except_bind_ok, except_bind_error]
  | some v12 =>
  have hnum : numeric_env_ok env = true := by
    simp [numeric_env_ok, intVar, floatVar, hp1, hp2, hp3, hp4, hp5, hp6,
      hp7, hp8, hp9, hp10, hp11, hp12, Except.isOk, Except.toBool]
  by_cases hm : missing_params env = []
  · refine Or.inr ⟨hnum, Or.inl ⟨hm, ?_⟩⟩
    simp [resolve, intVar, floatVar, hp1, hp2, hp3, hp4, hp5, hp6, hp7, hp8,
      hp9, hp10, hp11, hp12, except_bind_ok, hm, Except.isOk, Except.toBool]
  · refine Or.inr ⟨hnum, Or.inr ⟨hm, ?_⟩⟩
    simp [resolve, intVar, floatVar, hp1, hp2, hp3, hp4, hp5, hp6, hp7, hp8,
      hp9, hp10, hp11, hp12, except_bind_ok, hm]

theorem missing_params_nil_of_resolve_isOk (env : String → Option String)
    (h : (resolve env).isOk = true) : missing_params env = [] := by
  rcases resolve_shape env with ⟨_, v, hv⟩ | ⟨_, ⟨hm, _⟩ | ⟨_, he⟩⟩
  · rw [hv] at h; simp [Except.isOk, Except.toBool] at h
  · exact hm
  · rw [he] at h; simp [Except.isOk, Except.toBool] at h

theorem dataset_var_isSome_of_missing_nil (env : String → Option String)
    (h : missing_params env = []) :
    (env "DATASET_LOCAL_DIR").isSome = true := by
  unfold missing_params required_params at h
  cases he : env "DATASET_LOCAL_DIR" with
  | none => rw [he] at h; simp [falsyStr, List.filter] at h
  | some s => rfl

/-- C1. `plan_execution` follows the decision rule of the spec: under the
resolved precondition `0 < num_gpus ≤ available`, a request for one GPU
plans direct in-process execution; a request for more than one GPU with
the `IS_TORCHRUN` re-entrancy marker unset plans a spawn of `num_gpus`
local workers; and whenever the marker is set the plan is direct
regardless of `num_gpus`. -/
theorem plan_execution_decision_rule (g a : Int) (m : Bool)
    (h1 : 0 < g) (h2 : g ≤ a) :
    (g = 1 → plan_execution g a m = .ok .Direct) ∧
    (1 < g → m = false → plan_execution g a m = .ok (.Spawn g)) ∧
    (m = true → plan_execution g a m = .ok .Direct) := by
  unfold plan_execution
  rw [if_neg (not_lt.mpr h2), if_neg (not_le.mpr h1)]
  refine ⟨fun hg => by rw [if_pos hg], fun hg hm => ?_, fun hm => ?_⟩
  · rw [if_neg (by omega), hm, if_neg Bool.false_ne_true]
  · by_cases hg : g = 1
    · rw [if_pos hg]
    · rw [if_neg hg, hm, if_pos rfl]

/-- Witness for C1 at `available = 4`: one GPU plans `Direct`, four GPUs
plan `Spawn 4`, and four GPUs inside a torchrun worker plan `Direct`. -/
theorem plan_execution_decision_rule_cases :
    plan_execution 1 4 false = .ok .Direct ∧
    plan_execution 4 4 false = .ok (.Spawn 4) ∧
    plan_execution 4 4 true = .ok .Direct :=
  ⟨(plan_execution_decision_rule 1 4 false (by decide) (by decide)).1 rfl,
   (plan_execution_decision_rule 4 4 false (by decide) (by decide)).2.1
     (by decide) rfl,
   (plan_execution_decision_rule 4 4 true (by decide) (by decide)).2.2 rfl⟩

/-- C2. `plan_execution` enforces `0 < num_gpus ≤ available`: any request
outside that range fails with `ResourceError` (so no worker is ever
spawned for it), and inside the range the failure branch is unreachable
(the result is always a plan). -/
theorem plan_execution_precondition (g a : Int) :
    (∀ m : Bool, g ≤ 0 ∨ a < g → plan_execution g a m = .error .ResourceError) ∧
    (∀ m : Bool, (plan_execution g a m).isOk = true ↔ 0 < g ∧ g ≤ a) := by
  constructor
  · intro m h
    unfold plan_execution
    by_cases h1 : a < g
    · rw [if_pos h1]
    · rw [if_neg h1, if_pos (by omega)]
  · intro m
    constructor
    · intro hok
      unfold plan_execution at hok
      by_cases h1 : a < g
      · rw [if_pos h1] at hok
        simp [Except.isOk, Except.toBool] at hok
      · rw [if_neg h1] at hok
        by_cases h2 : g ≤ 0
        · rw [if_pos h2] at hok
          simp [Except.isOk, Except.toBool] at hok
        · omega
    · rintro ⟨hg, ha⟩
      unfold plan_execution
      rw [if_neg (not_lt.mpr ha), if_neg (not_le.mpr hg)]
      split_ifs <;> simp [Except.isOk, Except.toBool]

/-- Witness for C2: `num_gpus = 8` with four accelerators and
`num_gpus = 0` both fail with `ResourceError`, while `num_gpus = 4` with
four accelerators succeeds. -/
theorem plan_execution_precondition_cases :
    plan_execution 8 4 false = .error .ResourceError ∧
    plan_execution 0 4 false = .error .ResourceError ∧
    (plan_execution 4 4 false).isOk = true :=
  ⟨(plan_execution_precondition 8 4).1 false (Or.inr (by decide)),
   (plan_execution_precondition 0 4).1 false (Or.inl (by decide)),
   ((plan_execution_precondition 4 4).2 false).mpr (by decide)⟩

/-- C3. `ensure_dataset_ready` is a hard gate: when the dataset path is
not a directory, or is a directory with no entries, it fails with the
dataset-not-ready error (it raises instead of fetching or building
anything); it succeeds exactly when the directory exists and is
non-empty. -/
theorem ensure_dataset_ready_gate (cfg : RunConfig) (d : DirState) :
    (d.isDir = false ∨ d.entries = [] →
      validate_dataset cfg true d = .error .DatasetNotReady) ∧
    ((validate_dataset cfg true d).isOk = true ↔
      d.isDir = true ∧ d.entries ≠ []) := by
  unfold validate_dataset
  constructor
  · rintro (h | h)
    · rw [if_neg (by simp [h])]
    · by_cases hd : d.isDir = true
      · rw [if_pos ⟨rfl, hd⟩, if_neg (by simp [h])]
      · rw [if_neg (by simp [hd])]
  · split_ifs with h1 h2 h3 <;> simp [Except.isOk] <;> tauto

/-- Witness for C3: an existing-but-empty directory fails, a non-empty
one succeeds. -/
theorem ensure_dataset_ready_gate_cases :
    validate_dataset sampleConfig true dirEmptyDir = .error .DatasetNotReady ∧
    (validate_dataset sampleConfig true dirReady).isOk = true :=
  ⟨(ensure_dataset_ready_gate sampleConfig dirEmptyDir).1 (Or.inr rfl),
   ((ensure_dataset_ready_gate sampleConfig dirReady).2).mpr
     ⟨rfl, by decide⟩⟩

/-- C4. `ensure_dataset_ready` is idempotent: whenever a run succeeds,
running it again on the resulting directory succeeds, performs no write,
and leaves the directory state identical; moreover if `meta/modality.json`
was already present (with any content) the first run already changed
nothing and wrote nothing. -/
theorem ensure_dataset_ready_idempotent (cfg : RunConfig) (d d' : DirState)
    (ws : List WriteOp) (h : validate_dataset cfg true d = .ok (d', ws)) :
    validate_dataset cfg true d' = .ok (d', []) ∧
    (∀ m, d.modalityJson = some m → d' = d ∧ ws = []) := by
  unfold validate_dataset at h
  by_cases h1 : (true : Bool) = true ∧ d.isDir = true
  · rw [if_pos h1] at h
    by_cases h2 : d.entries ≠ []
    · rw [if_pos h2] at h
      by_cases h3 : cfg.data_config = "so100_dualcam" ∧ d.modalityJson = none
      · rw [if_pos h3] at h
        injection h with hpair
        have hd' : d' = { d with
            entries := if "meta" ∈ d.entries then d.entries else d.entries ++ ["meta"]
            modalityJson := some modality_content } :=
          (congrArg Prod.fst hpair).symm
        subst hd'
        constructor
        · unfold validate_dataset
          rw [if_pos ⟨rfl, h1.2⟩]
          rw [if_pos (show (if "meta" ∈ d.entries then d.entries
              else d.entries ++ ["meta"]) ≠ [] by
            by_cases hm : "meta" ∈ d.entries <;> simp [hm, h2])]
          rw [if_neg (fun hc => Option.noConfusion hc.2)]
        · intro m hm
          rw [h3.2] at hm
          exact Option.noConfusion hm
      · rw [if_neg h3] at h
        injection h with hpair
        have hd' : d' = d := (congrArg Prod.fst hpair).symm
        have hws : ws = [] := (congrArg Prod.snd hpair).symm
        subst hd'; subst hws
        refine ⟨?_, fun m _ => ⟨rfl, rfl⟩⟩
        unfold validate_dataset
        rw [if_pos h1, if_pos h2, if_neg h3]
    · rw [if_neg h2] at h
      exact Except.noConfusion h
  · rw [if_neg h1] at h
    exact Except.noConfusion h

/-- Witness for C4: re-running after the modality file was synthesized
changes nothing, and a run on a directory with custom modality content
leaves it untouched. -/
theorem ensure_dataset_ready_idempotent_case :
    validate_dataset sampleConfig true dirAfterWrite = .ok (dirAfterWrite, []) ∧
    validate_dataset sampleConfig true dirCustom = .ok (dirCustom, []) :=
  ⟨(ensure_dataset_ready_idempotent sampleConfig dirNoModality dirAfterWrite
      [WriteOp.makedirs "/data/x/meta",
       WriteOp.writeFile "/data/x/meta/modality.json" modality_content] rfl).1,
   (ensure_dataset_ready_idempotent sampleConfig dirCustom dirCustom [] rfl).1⟩

/-- C5. For a non-empty dataset directory lacking the modality file,
with data config `so100_dualcam`, `ensure_dataset_ready` creates
`meta/modality.json` inside the dataset directory with exactly the fixed
default schema (`modality_content`) and succeeds; the writes performed
are precisely the `makedirs` of `meta` and the write of that file. -/
theorem ensure_dataset_ready_synthesizes_default (cfg : RunConfig) (d : DirState)
    (hc : cfg.data_config = "so100_dualcam") (hd : d.isDir = true)
    (he : d.entries ≠ []) (hm : d.modalityJson = none) :
    validate_dataset cfg true d =
      .ok ({ d with
              entries := if "meta" ∈ d.entries then d.entries else d.entries ++ ["meta"]
              modalityJson := some modality_content },
           [.makedirs (cfg.dataset_local_dir ++ "/meta"),
            .writeFile (cfg.dataset_local_dir ++ "/meta" ++ "/modality.json")
              modality_content]) := by
  unfold validate_dataset
  rw [if_pos ⟨rfl, hd⟩, if_pos he, if_pos ⟨hc, hm⟩]

/-- Witness for C5 on `/data/x` containing only `episodes`: the writes
are `makedirs /data/x/meta` and the default file at
`/data/x/meta/modality.json`. -/
theorem ensure_dataset_ready_synthesizes_default_case :
    validate_dataset sampleConfig true dirNoModality =
      .ok (dirAfterWrite,
           [.makedirs "/data/x/meta",
            .writeFile "/data/x/meta/modality.json" modality_content]) :=
  ensure_dataset_ready_synthesizes_default sampleConfig dirNoModality
    rfl rfl (by decide) rfl

/-- C7. `build_training_parameters` is a pure deterministic mapping (its
embedding is a function of `(config, action_horizon)` alone, performing
no I/O): identical inputs yield identical parameter records, and the
`seed` field of the produced record is always 42. -/
theorem build_training_parameters_pure_seed42 (c₁ c₂ : RunConfig)
    (a₁ a₂ : Int) (hc : c₁ = c₂) (ha : a₁ = a₂) :
    build_training_parameters c₁ a₁ = build_training_parameters c₂ a₂ ∧
    (build_training_parameters c₁ a₁).seed = 42 := by
  subst hc; subst ha; exact ⟨rfl, rfl⟩

/-- Witness for C7 at the sample configuration and action horizon 16. -/
theorem build_training_parameters_pure_seed42_case :
    build_training_parameters sampleConfig 16 =
      build_training_parameters sampleConfig 16 ∧
    (build_training_parameters sampleConfig 16).seed = 42 :=
  build_training_parameters_pure_seed42 sampleConfig sampleConfig 16 16 rfl rfl

/-- C8. Exit codes of `run_workflow`: 0 when dataset validation and
training both succeed; 1 when dataset validation fails or the training
stage aborts with a caught workflow exception (never recovered or
retried — the code of the error is returned directly); and on the multi-worker
spawn path the exit code raised by the torchrun launch propagates through
unchanged (the `SystemExit` escapes the `except Exception` handler). -/
theorem run_workflow_exit_codes (c : RunConfig) (envHas : Bool) (d : DirState)
    (available : Int) (marker : Bool) (sr : SpawnResult) (trainOk : Bool)
    (code : Int) :
    ((validate_dataset c envHas d).isOk = false →
      (run_workflow c envHas d available marker sr trainOk).1 = 1) ∧
    (∀ d' ws, validate_dataset c envHas d = .ok (d', ws) →
      (run_training c available marker sr trainOk = .ok () →
        run_workflow c envHas d available marker sr trainOk = (0, d')) ∧
      (run_training c available marker sr trainOk = .error .exc →
        run_workflow c envHas d available marker sr trainOk = (1, d')) ∧
      (run_training c available marker sr trainOk = .error (.exit code) →
        run_workflow c envHas d available marker sr trainOk = (code, d'))) ∧
    (0 < c.num_gpus → c.num_gpus ≤ available → 1 < c.num_gpus →
      marker = false → sr = .sysExit (some code) →
      run_training c available marker sr trainOk = .error (.exit code)) := by
  refine ⟨?_, ?_, ?_⟩
  · intro hbad
    rcases hv : validate_dataset c envHas d with e | pr
    · simp [run_workflow, hv]
    · rw [hv] at hbad
      simp [Except.isOk, Except.toBool] at hbad
  · intro d' ws hv
    refine ⟨?_, ?_, ?_⟩ <;> intro ht <;> simp [run_workflow, hv, ht]
  · intro hg0 hga hg1 hm hsr
    subst hm; subst hsr
    have hplan : plan_execution c.num_gpus available false =
        .ok (.Spawn c.num_gpus) := by
      unfold plan_execution
      rw [if_neg (not_lt.mpr hga), if_neg (not_le.mpr hg0), if_neg (by omega)]
      simp
    simp [run_training, hplan, Option.getD]

/-- Witness for C8: the single-GPU success path exits 0, an empty dataset
directory exits 1, and on the four-worker spawn path a torchrun
`SystemExit 3` propagates as exit code 3. -/
theorem run_workflow_exit_codes_cases :
    run_workflow sampleConfig true dirReady 4 false .returned true =
      (0, dirReady) ∧
    (run_workflow sampleConfig true dirEmptyDir 4 false .returned true).1 = 1 ∧
    run_training sampleConfigMulti 4 false (.sysExit (some 3)) true =
      .error (.exit 3) :=
  ⟨((run_workflow_exit_codes sampleConfig true dirReady 4 false .returned
      true 0).2.1 dirReady [] rfl).1 rfl,
   (run_workflow_exit_codes sampleConfig true dirEmptyDir 4 false .returned
      true 0).1 rfl,
   (run_workflow_exit_codes sampleConfigMulti true dirReady 4 false
      (.sysExit (some 3)) true 3).2.2 (by decide) (by decide) (by decide)
      rfl rfl⟩

/-- C10. Frame property: when the data config is not `so100_dualcam`,
a successful `ensure_dataset_ready` performs no filesystem write at all —
the directory state is returned unchanged and the write list is empty,
even when the modality file is absent. -/
theorem ensure_dataset_ready_frame (cfg : RunConfig) (d : DirState)
    (hdc : cfg.data_config ≠ "so100_dualcam")
    (hok : (validate_dataset cfg true d).isOk = true) :
    validate_dataset cfg true d = .ok (d, []) := by
  unfold validate_dataset at hok ⊢
  by_cases h1 : (true : Bool) = true ∧ d.isDir = true
  · rw [if_pos h1] at hok ⊢
    by_cases h2 : d.entries ≠ []
    · rw [if_pos h2, if_neg (fun hc => hdc hc.1)]
    · rw [if_neg h2] at hok
      simp [Except.isOk, Except.toBool] at hok
  · rw [if_neg h1] at hok
    simp [Except.isOk, Except.toBool] at hok

/-- Witness for C10: with data config `fourier_gr1_arms_only` and the
modality file absent, the directory is untouched and nothing is
written. -/
theorem ensure_dataset_ready_frame_case :
    validate_dataset sampleConfigOtherData true dirNoModality =
      .ok (dirNoModality, []) :=
  ensure_dataset_ready_frame sampleConfigOtherData dirNoModality
    (by decide) (by decide)

/-- C6 counterexample: with `DATASET_LOCAL_DIR=/data/x` and
`MAX_STEPS=abc`, no required variable is missing, yet `resolve` does not
return a `RunConfig`: the `int()` call on `MAX_STEPS` raises first, with
an error that names that variable and lists no missing names.  This
refutes the claim that whenever no required variable is missing a fully
populated `RunConfig` is returned. -/
theorem resolve_parse_failure_cex :
    missing_params envBadMaxSteps = [] ∧
    resolve envBadMaxSteps = .error (.parseError "MAX_STEPS") := ⟨rfl, rfl⟩

/-- C6 (amended). Provided every numeric environment variable (or its
default) parses as its type — so no `int()`/`float()` call raises first —
`resolve` fails with an error listing every missing required variable
name (the full collect-all list, of which every falsy required variable
is a member) whenever any required variable is missing or empty, and
returns a fully populated `RunConfig` otherwise. -/
theorem resolve_collect_all (env : String → Option String)
    (hnum : numeric_env_ok env = true) :
    (∀ p ∈ required_params env, falsyStr p.2 = true →
      p.1 ∈ missing_params env) ∧
    (missing_params env ≠ [] →
      resolve env = .error (.missingRequired (missing_params env))) ∧
    (missing_params env = [] → ∃ c, resolve env = .ok c) := by
  refine ⟨?_, ?_, ?_⟩
  · intro p hp hf
    unfold missing_params
    exact List.mem_map_of_mem _ (List.mem_filter.mpr ⟨hp, hf⟩)
  · intro hm
    rcases resolve_shape env with ⟨hbad, _⟩ | ⟨_, ⟨hnil, _⟩ | ⟨_, he⟩⟩
    · rw [hnum] at hbad; exact Bool.noConfusion hbad
    · exact absurd hnil hm
    · exact he
  · intro hm
    rcases resolve_shape env with ⟨hbad, _⟩ | ⟨_, ⟨_, hok⟩ | ⟨hne, _⟩⟩
    · rw [hnum] at hbad; exact Bool.noConfusion hbad
    · exact except_ok_of_isOk _ hok
    · exact absurd hm hne

/-- Witness for C6 (amended): with nothing set, `resolve` fails listing
`DATASET_LOCAL_DIR`; with only `DATASET_LOCAL_DIR` set, it returns a
config. -/
theorem resolve_collect_all_cases :
    resolve envMissingAll = .error (.missingRequired ["DATASET_LOCAL_DIR"]) ∧
    ∃ c, resolve envMinimal = .ok c :=
  ⟨(resolve_collect_all envMissingAll (by decide)).2.1 (by decide),
   (resolve_collect_all envMinimal (by decide)).2.2 (by decide)⟩

/-- C9. The configuration is resolved from the environment once, at
construction: if resolution fails the process terminates (exit 1) before
any dataset access, and after a successful resolution the run depends on
the environment only through the resolved `RunConfig` and the
`IS_TORCHRUN` re-entrancy marker — two environments resolving to the same
result with the same marker produce identical runs (the
`DATASET_LOCAL_DIR` membership re-check inside `validate_dataset` is
pinned to true by successful resolution, so no field is re-read
lazily). -/
theorem config_resolved_before_run (env₁ env₂ : String → Option String)
    (d : DirState) (available : Int) (sr : SpawnResult) (trainOk : Bool) :
    ((resolve env₁).isOk = false →
      main_model env₁ d available sr trainOk = (1, d)) ∧
    ((resolve env₁).isOk = true → resolve env₁ = resolve env₂ →
      is_torchrun_marker env₁ = is_torchrun_marker env₂ →
      main_model env₁ d available sr trainOk =
        main_model env₂ d available sr trainOk) := by
  constructor
  · intro hbad
    rcases hr : resolve env₁ with e | c
    · simp [main_model, hr]
    · rw [hr] at hbad
      simp [Except.isOk, Except.toBool] at hbad
  · intro hok heq hmk
    obtain ⟨c, hc⟩ := except_ok_of_isOk _ hok
    have hc2 : resolve env₂ = .ok c := heq.symm.trans hc
    have hd1 := dataset_var_isSome_of_missing_nil env₁
      (missing_params_nil_of_resolve_isOk env₁ hok)
    have hd2 := dataset_var_isSome_of_missing_nil env₂
      (missing_params_nil_of_resolve_isOk env₂ (by rw [hc2]; rfl))
    simp only [main_model, hc, hc2]
    rw [hd1, hd2, hmk]

/-- Witness for C9: a failing resolution exits 1 with the dataset
untouched; `envMinimal` and `envMinimalExplicit` resolve identically and
run identically. -/
theorem config_resolved_before_run_case :
    main_model envMissingAll dirReady 4 .returned true = (1, dirReady) ∧
    main_model envMinimal dirReady 4 .returned true =
      main_model envMinimalExplicit dirReady 4 .returned true :=
  ⟨(config_resolved_before_run envMissingAll envMinimal dirReady 4 .returned
      true).1 rfl,
   (config_resolved_before_run envMinimal envMinimalExplicit dirReady 4
      .returned true).2 rfl rfl rfl⟩

end Gr00tFinetune
